import Mathlib

/-
Verification of the place-classification, scoring and time-window engine of
the healthSensitiveActiviesApp repository (src/main.py).

Embedding conventions:
- an OSM tag dictionary is an association list looked up with List.lookup;
- Python float distances and scores are modelled as rationals;
- round(x, 1) is modelled as floor(x * 10 + 1/2) / 10 (round to one decimal);
- a Python set of sensitivity names is a Finset String;
- the hourly weather records keep only the fields the core reads: the local
  hour number, the uv index estimate and the rain flag.
-/

/-- Tag dictionary of a raw OSM place record: an association list of
key-value string pairs, looked up with List.lookup (first binding wins,
mirroring a Python dict with unique keys). -/
def Tags : Type := List (String × String)

instance : DecidableEq Tags := by
  unfold Tags
  infer_instance

/-- Lookup of a tag key, mirroring tags.get(key) in src/main.py. -/
def tget (tags : Tags) (key : String) : Option String :=
  List.lookup key tags

/-- ASCII lowercasing of a tag value, the model of the Python lower()
call on fee and access tags in classify_feature. -/
def pyLower (s : String) : String :=
  String.mk (s.data.map Char.toLower)

/-- Python truthiness filter for an optional string: None and the empty
string are falsy in the fallback chain of classify_feature. -/
def pyTruthy (o : Option String) : Option String :=
  match o with
  | none => none
  | some s => if s = "" then none else some s

/-- Fallback kind of classify_feature in src/main.py: the chain
tags.get("leisure") or tags.get("amenity") or tags.get("tourism") or
tags.get("man_made") or "Public place". -/
def fallbackKind (tags : Tags) : String :=
  match pyTruthy (tget tags "leisure") with
  | some s => s
  | none =>
    match pyTruthy (tget tags "amenity") with
    | some s => s
    | none =>
      match pyTruthy (tget tags "tourism") with
      | some s => s
      | none =>
        match pyTruthy (tget tags "man_made") with
        | some s => s
        | none => "Public place"

/-- Activity label set derived from the kind and the fee flags, from the
activities block of classify_feature in src/main.py. -/
def activitiesFor (kind : String) (is_free is_paid : Option Bool) : Finset String :=
  (if kind ∈ ["Park", "Recreation ground", "Open sports field", "Playground / fitness area"]
    then {"Walking", "Hiking", "Parks", "Playgrounds", "Sports fields"} else ∅) ∪
  (if kind ∈ ["Cycleway / greenway", "Running track", "Boardwalk / beach / pier"]
    then {"Walking", "Running", "Cycling", "Beaches", "Tracks", "Greenways"} else ∅) ∪
  (if kind = "Swimming (pool)" then {"Swimming"} else ∅) ∪
  (if kind ∈ ["Community center", "Arts centre", "Marketplace"]
    then {"Community events", "Community centers"} else ∅) ∪
  (if kind = "Museum" then {"Museums"} else ∅) ∪
  (if kind = "Botanical garden" then {"Botanical gardens"} else ∅) ∪
  (if kind ∈ ["Zoo", "Animal park"] then {"Community events"} else ∅) ∪
  (if kind ∈ ["Farm (attraction)", "Farm shop"] then {"Farms"} else ∅) ∪
  (if kind = "Ice rink" then {"Ice skating"} else ∅) ∪
  (if is_free = some true then {"Free"} else ∅) ∪
  (if is_paid = some true then {"Paid"} else ∅)

/-- Derived attributes of a classified place, the return record of
classify_feature in src/main.py. -/
structure Classified where
  kind : String
  indoor : Bool
  shaded_possible : Bool
  waterfront : Bool
  pollen_risk : String
  paved : Bool
  wheelchair : Bool
  quiet_hint : Bool
  is_paid : Option Bool
  is_free : Option Bool
  activities : Finset String
deriving DecidableEq

/-- Paved flag computed at the top of classify_feature from the surface
and tracktype tags, before the kind ladder may override it. -/
def pavedTag (tags : Tags) : Bool :=
  ((tget tags "surface").any fun s =>
    s ∈ ["paved", "asphalt", "concrete", "paving_stones", "wood"]) ||
  (tget tags "tracktype" == some "grade1")

/-- Kind rule ladder of classify_feature in src/main.py, a single
if/elif chain evaluated top to bottom; the tuple collects the fields
kind, indoor, shaded, waterfront, pollen_risk and paved that the
matching branch assigns. -/
def ladderTuple (tags : Tags) : String × Bool × Bool × Bool × String × Bool :=
  let paved0 := pavedTag tags
  (
    if tget tags "amenity" == some "community_centre" then
      ("Community center", true, false, false, "low", paved0)
    else if tget tags "leisure" == some "swimming_pool" then
      let ind := tget tags "indoor" == some "yes" || tget tags "covered" == some "yes"
      ("Swimming (pool)", ind, false, false, if ind then "low" else "medium", paved0)
    else if tget tags "leisure" == some "park" then
      ("Park", false, true, false, "higher", paved0)
    else if tget tags "leisure" == some "playground" then
      ("Playground / fitness area", false, true, false, "higher", paved0)
    else if tget tags "leisure" == some "fitness_station" then
      ("Outdoor fitness station", false, true, false, "higher", paved0)
    else if tget tags "leisure" == some "track" then
      ("Running track", false, false, false, "medium", true)
    else if tget tags "man_made" == some "pier" || tget tags "tourism" == some "beach" then
      ("Boardwalk / beach / pier", false, false, true, "low", true)
    else if tget tags "leisure" == some "pitch" then
      ("Open sports field", false, false, false, "higher", paved0)
    else if tget tags "leisure" == some "recreation_ground" then
      ("Recreation ground", false, false, false, "medium", paved0)
    else if tget tags "leisure" == some "ice_rink" then
      let ind := tget tags "indoor" == some "yes"
      ("Ice rink", ind, false, false, if ind then "low" else "medium", paved0)
    else if tget tags "leisure" == some "sports_centre" then
      let ind := tget tags "indoor" == some "yes" || tget tags "covered" == some "yes"
      ("Sports centre", ind, false, false, if ind then "low" else "medium", paved0)
    else if tget tags "highway" == some "cycleway" then
      ("Cycleway / greenway", false, false, false, "medium", true)
    else if tget tags "tourism" == some "museum" then
      ("Museum", true, false, false, "low", paved0)
    else if tget tags "amenity" == some "marketplace" then
      ("Marketplace", false, false, false, "medium", paved0)
    else if tget tags "amenity" == some "arts_centre" then
      ("Arts centre", true, false, false, "low", paved0)
    else if tget tags "tourism" == some "attraction" &&
        (tget tags "attraction" == some "farm" || tget tags "attraction" == some "animal_park" ||
         tget tags "attraction" == some "botanical_garden") then
      (if tget tags "attraction" == some "farm" then "Farm (attraction)"
       else if tget tags "attraction" == some "botanical_garden" then "Botanical garden"
       else "Animal park", false, false, false, "medium", paved0)
    else if tget tags "leisure" == some "garden" &&
        (tget tags "garden" == some "botanical" || tget tags "garden" == some "arboretum" ||
         tget tags "garden:type" == some "botanical" || tget tags "garden:type" == some "arboretum") then
      ("Botanical garden", false, false, false, "medium", paved0)
    else if tget tags "shop" == some "farm" then
      ("Farm shop", false, false, false, "medium", paved0)
    else
      (fallbackKind tags, false, false, false, "medium", paved0))

/-- Classification of a tag dictionary, translated rule for rule from
classify_feature in src/main.py: the rule ladder result plus the
independent wheelchair, quiet hint and fee attributes and the derived
activity labels. -/
def classify_feature (tags : Tags) : Classified :=
  let wheelchair := tget tags "wheelchair" == some "yes"
  let quiet_hint :=
    (tget tags "access" == none || tget tags "access" == some "yes") &&
    tget tags "name" == none
  let fee_tag := pyLower ((tget tags "fee").getD "")
  let access_tag := pyLower ((tget tags "access").getD "")
  let is_paid : Option Bool :=
    if fee_tag = "yes" then some true else if fee_tag = "no" then some false else none
  let is_free : Option Bool :=
    if fee_tag = "no" ∨ access_tag = "public" ∨ access_tag = "yes" then some true
    else if fee_tag = "yes" then some false else none
  let t := ladderTuple tags
  { kind := t.1
    indoor := t.2.1
    shaded_possible := t.2.2.1
    waterfront := t.2.2.2.1
    pollen_risk := t.2.2.2.2.1
    paved := t.2.2.2.2.2
    wheelchair := wheelchair
    quiet_hint := quiet_hint
    is_paid := is_paid
    is_free := is_free
    activities := activitiesFor t.1 is_free is_paid }

/-- Index of the first category rule of the classify_feature if/elif chain
that a tag dictionary matches, with the conditions written exactly as in
classify_feature; none means the final fallback branch is taken. -/
def firstMatchingRule (tags : Tags) : Option ℕ :=
  if tget tags "amenity" == some "community_centre" then some 0
  else if tget tags "leisure" == some "swimming_pool" then some 1
  else if tget tags "leisure" == some "park" then some 2
  else if tget tags "leisure" == some "playground" then some 3
  else if tget tags "leisure" == some "fitness_station" then some 4
  else if tget tags "leisure" == some "track" then some 5
  else if tget tags "man_made" == some "pier" || tget tags "tourism" == some "beach" then some 6
  else if tget tags "leisure" == some "pitch" then some 7
  else if tget tags "leisure" == some "recreation_ground" then some 8
  else if tget tags "leisure" == some "ice_rink" then some 9
  else if tget tags "leisure" == some "sports_centre" then some 10
  else if tget tags "highway" == some "cycleway" then some 11
  else if tget tags "tourism" == some "museum" then some 12
  else if tget tags "amenity" == some "marketplace" then some 13
  else if tget tags "amenity" == some "arts_centre" then some 14
  else if tget tags "tourism" == some "attraction" &&
      (tget tags "attraction" == some "farm" || tget tags "attraction" == some "animal_park" ||
       tget tags "attraction" == some "botanical_garden") then some 15
  else if tget tags "leisure" == some "garden" &&
      (tget tags "garden" == some "botanical" || tget tags "garden" == some "arboretum" ||
       tget tags "garden:type" == some "botanical" || tget tags "garden:type" == some "arboretum") then some 16
  else if tget tags "shop" == some "farm" then some 17
  else none

/-- Kind assigned by the rule of the given priority index in the
classify_feature chain of src/main.py. -/
def ruleKind (k : ℕ) (tags : Tags) : String :=
  match k with
  | 0 => "Community center"
  | 1 => "Swimming (pool)"
  | 2 => "Park"
  | 3 => "Playground / fitness area"
  | 4 => "Outdoor fitness station"
  | 5 => "Running track"
  | 6 => "Boardwalk / beach / pier"
  | 7 => "Open sports field"
  | 8 => "Recreation ground"
  | 9 => "Ice rink"
  | 10 => "Sports centre"
  | 11 => "Cycleway / greenway"
  | 12 => "Museum"
  | 13 => "Marketplace"
  | 14 => "Arts centre"
  | 15 =>
    if tget tags "attraction" == some "farm" then "Farm (attraction)"
    else if tget tags "attraction" == some "botanical_garden" then "Botanical garden"
    else "Animal park"
  | 16 => "Botanical garden"
  | 17 => "Farm shop"
  | _ => fallbackKind tags

/-- Kind that the classify_feature chain assigns for a given first
matching rule index, or the fallback kind when no rule matches. -/
def kindOf (o : Option ℕ) (tags : Tags) : String :=
  match o with
  | some k => ruleKind k tags
  | none => fallbackKind tags

/-- Rounding of a rational score to one decimal place, the model of
round(score, 1) at the end of score_feature in src/main.py. -/
def round1 (q : ℚ) : ℚ :=
  ((Rat.floor (q * 10 + 1 / 2) : ℤ) : ℚ) / 10

/-- Adjustment of the UV sensitivity block in score_feature. -/
def uvDelta (feat : Classified) : ℤ :=
  (if feat.indoor then 28 else 0) +
  (if feat.shaded_possible then 12 else 0) +
  (if feat.waterfront then 6 else 0) +
  (if feat.kind ∈ ["Open sports field", "Running track"] then -5 else 0)

/-- Adjustment of the Pollen sensitivity block in score_feature. -/
def pollenDelta (feat : Classified) : ℤ :=
  (if feat.indoor then 26 else 0) +
  (if feat.waterfront then 12 else 0) +
  (if feat.pollen_risk = "higher" then -18 else if feat.pollen_risk = "low" then 8 else 0)

/-- Adjustment of the Breathing sensitivity block in score_feature. -/
def breathingDelta (feat : Classified) : ℤ :=
  (if feat.indoor then 12 else 0) +
  (if feat.waterfront then 8 else 0) +
  (if feat.paved then 6 else 0) +
  (if feat.kind ∈ ["Open sports field"] then -4 else 0)

/-- Adjustment of the Smog sensitivity block in score_feature; a missing
road distance contributes nothing. -/
def smogDelta (road_distance_m : Option ℚ) : ℤ :=
  match road_distance_m with
  | none => 0
  | some r => if r < 80 then -24 else if r < 180 then -16 else if r < 350 then -8 else 4

/-- Adjustment of the Low impact block in score_feature. -/
def lowImpactDelta (feat : Classified) : ℤ :=
  (if feat.paved then 10 else 0) +
  (if feat.indoor then 6 else 0) +
  (if feat.kind ∈ ["Running track", "Swimming (pool)", "Cycleway / greenway"] then 10 else 0) +
  (if feat.kind ∈ ["Open sports field", "Playground / fitness area"] then -4 else 0)

/-- Adjustment of the Noise sensitivity block in score_feature; a missing
road distance leaves only the quiet hint bonus. -/
def noiseDelta (feat : Classified) (road_distance_m : Option ℚ) : ℤ :=
  (match road_distance_m with
   | none => 0
   | some r => if r < 80 then -22 else if r < 180 then -12 else if r < 350 then -6 else 6) +
  (if feat.quiet_hint then 4 else 0)

/-- Adjustment of the Privacy block in score_feature; a missing road
distance leaves only the quiet hint and kind adjustments. -/
def privacyDelta (feat : Classified) (road_distance_m : Option ℚ) : ℤ :=
  (match road_distance_m with
   | none => 0
   | some r => if 350 < r then 10 else 0) +
  (if feat.quiet_hint then 6 else 0) +
  (if feat.kind ∈ ["Boardwalk / beach / pier", "Playground / fitness area"] then -4 else 0)

/-- Adjustment of the Accessibility block in score_feature. -/
def accessibilityDelta (feat : Classified) : ℤ :=
  (if feat.wheelchair then 20 else 0) +
  (if feat.paved then 8 else 0) +
  (if feat.kind ∈ ["Community center", "Sports centre", "Swimming (pool)"] then 6 else 0)

/-- Unconditional free public outdoor resource bonus at the end of
score_feature. -/
def outdoorBonus (kind : String) : ℤ :=
  if kind ∈ ["Park", "Cycleway / greenway", "Running track", "Boardwalk / beach / pier",
             "Recreation ground", "Outdoor fitness station"] then 6 else 0

/-- Score of a classified place, translated block for block from
score_feature in src/main.py: distance-decayed base, one additive block
per active sensitivity, the unconditional kind bonus, then rounding to
one decimal. -/
def score_feature (feat : Classified) (active : Finset String) (distance_km : ℚ)
    (road_distance_m : Option ℚ) : ℚ :=
  let score := max 0 (100 - distance_km * 8)
  let score := score + (if "UV sensitivity" ∈ active then (uvDelta feat : ℚ) else 0)
  let score := score + (if "Pollen sensitivity" ∈ active then (pollenDelta feat : ℚ) else 0)
  let score := score + (if "Breathing sensitivity" ∈ active then (breathingDelta feat : ℚ) else 0)
  let score := score + (if "Smog sensitivity" ∈ active then (smogDelta road_distance_m : ℚ) else 0)
  let score := score + (if "Low impact" ∈ active then (lowImpactDelta feat : ℚ) else 0)
  let score := score + (if "Noise sensitivity" ∈ active then (noiseDelta feat road_distance_m : ℚ) else 0)
  let score := score + (if "Privacy" ∈ active then (privacyDelta feat road_distance_m : ℚ) else 0)
  let score := score + (if "Accessibility" ∈ active then (accessibilityDelta feat : ℚ) else 0)
  let score := score + (outdoorBonus feat.kind : ℚ)
  round1 score

/-- Total integer adjustment that score_feature adds to the base score for
a given sensitivity set and road distance. -/
def totalDelta (feat : Classified) (active : Finset String) (road_distance_m : Option ℚ) : ℤ :=
  (if "UV sensitivity" ∈ active then uvDelta feat else 0) +
  (if "Pollen sensitivity" ∈ active then pollenDelta feat else 0) +
  (if "Breathing sensitivity" ∈ active then breathingDelta feat else 0) +
  (if "Smog sensitivity" ∈ active then smogDelta road_distance_m else 0) +
  (if "Low impact" ∈ active then lowImpactDelta feat else 0) +
  (if "Noise sensitivity" ∈ active then noiseDelta feat road_distance_m else 0) +
  (if "Privacy" ∈ active then privacyDelta feat road_distance_m else 0) +
  (if "Accessibility" ∈ active then accessibilityDelta feat else 0) +
  outdoorBonus feat.kind

/-- Include set of the tri-state activity filter map in src/main.py: the
keys mapped to 1. -/
def tri_inc (tri_map : List (String × ℤ)) : Finset String :=
  ((tri_map.filter fun p => p.2 = 1).map Prod.fst).toFinset

/-- Exclude set of the tri-state activity filter map in src/main.py: the
keys mapped to -1. -/
def tri_exc (tri_map : List (String × ℤ)) : Finset String :=
  ((tri_map.filter fun p => p.2 = -1).map Prod.fst).toFinset

/-- Include/exclude activity filter, translated from tri_filter in
src/main.py; the Python truthiness tests on the sets become nonemptiness
tests. -/
def tri_filter (activity_set : Finset String) (tri_map : List (String × ℤ)) : Bool :=
  if (tri_exc tri_map).Nonempty ∧ (activity_set ∩ tri_exc tri_map).Nonempty then false
  else if (tri_inc tri_map).Nonempty ∧ ¬(activity_set ∩ tri_inc tri_map).Nonempty then false
  else true

/-- Hourly weather record as consumed by build_time_windows: local hour
number, uv index estimate and rain flag. -/
structure HourRec where
  hour : ℕ
  uvi : ℤ
  rain : Bool
deriving DecidableEq, Inhabited

/-- Per-hour risk accumulation of build_time_windows in src/main.py:
start at 0, add the UV band if UV sensitivity is active, add the pollen
band and subtract the rain credit if Pollen or Breathing sensitivity is
active, then floor at 0. -/
def hourRisk (active : Finset String) (rec : HourRec) : ℤ :=
  let r0 : ℤ := 0
  let r1 :=
    if "UV sensitivity" ∈ active then
      r0 + (if 7 ≤ rec.uvi then 3 else if 4 ≤ rec.uvi then 2 else 1)
    else r0
  let r2 :=
    if "Pollen sensitivity" ∈ active ∨ "Breathing sensitivity" ∈ active then
      let ra := r1 + (if (5 ≤ rec.hour ∧ rec.hour ≤ 10) ∨ (16 ≤ rec.hour ∧ rec.hour ≤ 20) then 2 else 1)
      if rec.rain then ra - 1 else ra
    else r1
  max 0 r2

/-- Worker of contiguous_windows in src/main.py. The Python loop keeps an
optional open run start; the four equations below are its four cases at
index i: a good hour opens or extends a run, a bad hour closes an open run
at i - 1, and reaching the last index n - 1 closes an open run at i. -/
def cwAux (n : ℕ) : List Bool → ℕ → Option ℕ → List (ℕ × ℕ)
  | [], _, _ => []
  | true :: rest, i, none =>
    if i = n - 1 then (i, i) :: cwAux n rest (i + 1) none
    else cwAux n rest (i + 1) (some i)
  | true :: rest, i, some s =>
    if i = n - 1 then (s, i) :: cwAux n rest (i + 1) none
    else cwAux n rest (i + 1) (some s)
  | false :: rest, i, none => cwAux n rest (i + 1) none
  | false :: rest, i, some s => (s, i - 1) :: cwAux n rest (i + 1) none

/-- Contiguous run extraction of contiguous_windows in src/main.py: the
inclusive index pairs of the maximal runs of true in the good mask. The
times argument of the Python function is never read there, so it is
dropped here. -/
def contiguous_windows (good_mask : List Bool) : List (ℕ × ℕ) :=
  cwAux good_mask.length good_mask 0 none

/-- Good-hour mask of build_time_windows: hourly risks mapped to the test
risk <= 2. -/
def riskMask (hourly : List HourRec) (active : Finset String) : List Bool :=
  (hourly.map fun rec => hourRisk active rec).map fun r => decide (r ≤ 2)

/-- Window construction of build_time_windows for one run (s, e) of good
hours: start time, exclusive end time one hour past the last good hour,
and the reason string. -/
def windowOf (hourly : List HourRec) (active : Finset String) (se : ℕ × ℕ) : ℕ × ℕ × String :=
  let startH := (hourly.getD se.1 default).hour
  let endH := (hourly.getD se.2 default).hour + 1
  let why : List String :=
    (if "UV sensitivity" ∈ active then ["lower UV"] else []) ++
    (if "Pollen sensitivity" ∈ active ∨ "Breathing sensitivity" ∈ active then
      [if (List.range (se.2 + 1 - se.1)).any fun k => (hourly.getD (se.1 + k) default).rain then
        "lower pollen (est.) after rain"
       else "lower pollen (est.)"]
     else [])
  (startH, endH, if why.isEmpty then "comfortable" else String.intercalate ", " why)

/-- Time-window recommendation, translated from build_time_windows in
src/main.py: extract the contiguous good runs and, if none exist, fall
back to the two fixed heuristic windows 06:00-09:00 and 18:00-21:00.
Timestamps are modelled by their hour numbers. -/
def build_time_windows (hourly : List HourRec) (active : Finset String) : List (ℕ × ℕ × String) :=
  let idx := contiguous_windows (riskMask hourly active)
  let windows := idx.map (windowOf hourly active)
  if windows.isEmpty then
    [(6, 9, "early morning (heuristic)"), (18, 21, "evening (heuristic)")]
  else windows


/-- Concrete tag dictionary with a community centre tag and a park tag,
used for the rule priority scenario. -/
def ccParkTags : Tags := [("amenity", "community_centre"), ("leisure", "park")]

/-- Concrete tag dictionary of scenario B: a wheelchair accessible
community centre. -/
def ccWheelTags : Tags := [("amenity", "community_centre"), ("wheelchair", "yes")]

/-- Concrete tag dictionary of scenario D: a sports pitch with no fee or
access tags. -/
def pitchTags : Tags := [("leisure", "pitch")]

/-- Attribute record with every boolean attribute false and a kind outside
every bonus list, used for the negative score scenario. -/
def bareFeat : Classified :=
  { kind := "Public place", indoor := false, shaded_possible := false, waterfront := false,
    pollen_risk := "medium", paved := false, wheelchair := false, quiet_hint := false,
    is_paid := none, is_free := none, activities := ∅ }

/-- Hourly series for hours 6 to 21 with uv index 8 everywhere and no
rain: every hour is risky under UV sensitivity. -/
def uvSeries : List HourRec :=
  (List.range 16).map fun i => { hour := 6 + i, uvi := 8, rain := false }

/-- Hourly series for hours 6 to 21 with uv index 2 everywhere and no
rain: every hour is good under UV sensitivity. -/
def calmSeries : List HourRec :=
  (List.range 16).map fun i => { hour := 6 + i, uvi := 2, rain := false }

lemma ratFloor_eq_intFloor (q : ℚ) : (Rat.floor q : ℤ) = ⌊q⌋ := rfl

lemma round1_zero : round1 0 = 0 := by
  unfold round1
  rw [ratFloor_eq_intFloor]
  have h : (0 : ℚ) * 10 + 1 / 2 = 1 / 2 := by norm_num
  rw [h]
  have h2 : ⌊(1 / 2 : ℚ)⌋ = 0 := by
    rw [Int.floor_eq_iff]
    norm_num
  rw [h2]
  norm_num

lemma round1_add_int (q : ℚ) (k : ℤ) : round1 (q + k) = round1 q + k := by
  unfold round1
  have h : (q + k) * 10 + 1 / 2 = q * 10 + 1 / 2 + (10 * k : ℤ) := by push_cast; ring
  rw [h, ratFloor_eq_intFloor, ratFloor_eq_intFloor, Int.floor_add_int]
  push_cast
  ring

lemma round1_intCast (k : ℤ) : round1 ((k : ℤ) : ℚ) = k := by
  have h : ((k : ℤ) : ℚ) = 0 + (k : ℚ) := by ring
  rw [h, round1_add_int, round1_zero, zero_add]

lemma round1_mono {a b : ℚ} (h : a ≤ b) : round1 a ≤ round1 b := by
  unfold round1
  rw [ratFloor_eq_intFloor, ratFloor_eq_intFloor]
  have h2 : ⌊a * 10 + 1 / 2⌋ ≤ ⌊b * 10 + 1 / 2⌋ := Int.floor_le_floor (by linarith)
  have h3 : ((⌊a * 10 + 1 / 2⌋ : ℤ) : ℚ) ≤ ((⌊b * 10 + 1 / 2⌋ : ℤ) : ℚ) := by exact_mod_cast h2
  linarith

lemma score_feature_eq (feat : Classified) (active : Finset String) (d : ℚ) (rd : Option ℚ) :
    score_feature feat active d rd =
      round1 (max 0 (100 - d * 8) + (totalDelta feat active rd : ℚ)) := by
  simp only [score_feature, totalDelta]
  congr 1
  push_cast [apply_ite (Int.cast : ℤ → ℚ)]
  ring

lemma score_feature_split (feat : Classified) (active : Finset String) (d : ℚ) (rd : Option ℚ) :
    score_feature feat active d rd =
      round1 (max 0 (100 - d * 8)) + (totalDelta feat active rd : ℚ) := by
  rw [score_feature_eq, round1_add_int]

lemma ccWheel_score_eq :
    score_feature (classify_feature ccWheelTags) {"Pollen sensitivity", "Accessibility"} 0 none = 160 := by
  rw [score_feature_split]
  have ht : totalDelta (classify_feature ccWheelTags) {"Pollen sensitivity", "Accessibility"} none = 60 := by
    decide
  rw [ht]
  have hb : max (0 : ℚ) (100 - 0 * 8) = (100 : ℤ) := by
    rw [max_eq_right (by norm_num : (0 : ℚ) ≤ 100 - 0 * 8)]
    norm_num
  rw [hb, round1_intCast]
  norm_num

/-- C3: the claim predicts 152.0 for the wheelchair accessible community
centre under Pollen sensitivity and Accessibility at distance 0, but the
code scores it 160.0, because the community centre also gets the
pollenRisk low bonus of +8 in the pollen block. -/
theorem c3_counterexample :
    score_feature (classify_feature ccWheelTags) {"Pollen sensitivity", "Accessibility"} 0 none ≠ 152 := by
  rw [ccWheel_score_eq]
  norm_num

/-- C3 (amended): the tag map of scenario B classifies as an indoor
community center and scores exactly 160.0, which is base 100 plus 26 for
indoor and 8 for low pollen risk under pollen sensitivity, plus 20 for
wheelchair and 6 for the kind under accessibility. -/
theorem c3_scenario_b_score :
    (classify_feature ccWheelTags).kind = "Community center" ∧
    (classify_feature ccWheelTags).indoor = true ∧
    score_feature (classify_feature ccWheelTags) {"Pollen sensitivity", "Accessibility"} 0 none = 160 :=
  ⟨by decide, by decide, ccWheel_score_eq⟩

/-- C9: the claim says the pitch activity set is exactly the singleton
Sports fields, with neither Walking nor Parks, but the code puts the kind
Open sports field in the same five-label outdoor group as Park, so the
set contains Walking. -/
theorem c9_counterexample :
    (classify_feature pitchTags).activities ≠ {"Sports fields"} ∧
    "Walking" ∈ (classify_feature pitchTags).activities ∧
    "Parks" ∈ (classify_feature pitchTags).activities := by
  refine ⟨?_, by decide, by decide⟩
  intro h
  have hw : "Walking" ∈ (classify_feature pitchTags).activities := by decide
  rw [h] at hw
  simp at hw

/-- C9 (amended): the pitch tag map with fee and access absent classifies
as Open sports field with both fee flags null, and its activity set is
the five-label group Walking, Hiking, Parks, Playgrounds, Sports fields
of the mapping table, so it contains Walking and Parks. -/
theorem c9_pitch_classification :
    (classify_feature pitchTags).kind = "Open sports field" ∧
    (classify_feature pitchTags).is_paid = none ∧
    (classify_feature pitchTags).is_free = none ∧
    (classify_feature pitchTags).activities =
      {"Walking", "Hiking", "Parks", "Playgrounds", "Sports fields"} := by
  refine ⟨by decide, by decide, by decide, by decide⟩

/-- C10: the final score is not floored at zero: the bare attribute
record at distance 13 has clamped base 0, and with Smog sensitivity
active at road distance 50 the smog band subtracts 24, so score_feature
returns exactly -24.0, a negative value. -/
theorem c10_negative_score :
    score_feature bareFeat {"Smog sensitivity"} 13 (some 50) = -24 ∧
    score_feature bareFeat {"Smog sensitivity"} 13 (some 50) < 0 := by
  have h : score_feature bareFeat {"Smog sensitivity"} 13 (some 50) = -24 := by
    rw [score_feature_split]
    have ht : totalDelta bareFeat {"Smog sensitivity"} (some 50) = -24 := by
      simp [totalDelta, smogDelta, uvDelta, pollenDelta, breathingDelta, lowImpactDelta,
        noiseDelta, privacyDelta, accessibilityDelta, outdoorBonus, bareFeat]
      norm_num
    rw [ht]
    have hb : max (0 : ℚ) (100 - 13 * 8) = ((0 : ℤ) : ℚ) := by
      rw [max_eq_left (by norm_num : (100 : ℚ) - 13 * 8 ≤ 0)]
      norm_num
    rw [hb, round1_intCast]
    push_cast
    ring
  exact ⟨h, by rw [h]; norm_num⟩

/-- C7: a place passes tri_filter exactly when its activity set is
disjoint from the exclude set and the include set is empty or meets the
activity set; in particular a place whose activities meet both the
include and the exclude set is always filtered out. -/
theorem c7_filter_exclusion_precedence (aset : Finset String) (tmap : List (String × ℤ)) :
    (tri_filter aset tmap = true ↔
      (Disjoint aset (tri_exc tmap) ∧
        (tri_inc tmap = ∅ ∨ (aset ∩ tri_inc tmap).Nonempty))) ∧
    ((aset ∩ tri_inc tmap).Nonempty → (aset ∩ tri_exc tmap).Nonempty →
      tri_filter aset tmap = false) := by
  unfold tri_filter
  split_ifs with h1 h2
  · refine ⟨?_, fun _ _ => rfl⟩
    simp only [Bool.false_eq_true, false_iff]
    intro hc
    rcases h1 with ⟨hne, hinter⟩
    exact (Finset.not_disjoint_iff_nonempty_inter.mpr hinter) hc.1
  · refine ⟨?_, ?_⟩
    · simp only [Bool.false_eq_true, false_iff]
      intro hc
      rcases h2 with ⟨hne, hninter⟩
      rcases hc.2 with hemp | hint
      · rw [hemp] at hne
        exact absurd hne Finset.not_nonempty_empty
      · exact hninter hint
    · intro hint hexc
      exfalso
      apply h1
      refine ⟨?_, hexc⟩
      rcases hexc with ⟨x, hx⟩
      exact ⟨x, (Finset.mem_inter.mp hx).2⟩
  · refine ⟨?_, ?_⟩
    · simp only [true_iff]
      push_neg at h1 h2
      constructor
      · rw [Finset.disjoint_right]
        intro x hxe hxa
        have hne : (tri_exc tmap).Nonempty := ⟨x, hxe⟩
        exact (h1 hne) ⟨x, Finset.mem_inter.mpr ⟨hxa, hxe⟩⟩
      · by_cases hinc : (tri_inc tmap).Nonempty
        · exact Or.inr (h2 hinc)
        · exact Or.inl (Finset.not_nonempty_iff_eq_empty.mp hinc)
    · intro hint hexc
      exfalso
      apply h1
      refine ⟨?_, hexc⟩
      rcases hexc with ⟨x, hx⟩
      exact ⟨x, (Finset.mem_inter.mp hx).2⟩

/-- C7 witness: a place offering Walking and Museums, with Walking
included and Museums excluded, is filtered out. -/
theorem c7_filter_exclusion_precedence_witness :
    tri_filter {"Walking", "Museums"} [("Walking", 1), ("Museums", -1)] = false :=
  (c7_filter_exclusion_precedence {"Walking", "Museums"} [("Walking", 1), ("Museums", -1)]).2
    (by decide) (by decide)

lemma pyTruthy_ne_empty {o : Option String} {s : String} (h : pyTruthy o = some s) : s ≠ "" := by
  cases o with
  | none => simp [pyTruthy] at h
  | some t =>
    simp only [pyTruthy] at h
    by_cases ht : t = ""
    · rw [if_pos ht] at h
      exact absurd h (by simp)
    · rw [if_neg ht] at h
      injection h with h2
      exact h2 ▸ ht

lemma fallbackKind_ne_empty (tags : Tags) : fallbackKind tags ≠ "" := by
  unfold fallbackKind
  cases h1 : pyTruthy (tget tags "leisure") with
  | some s => exact pyTruthy_ne_empty h1
  | none =>
    cases h2 : pyTruthy (tget tags "amenity") with
    | some s => exact pyTruthy_ne_empty h2
    | none =>
      cases h3 : pyTruthy (tget tags "tourism") with
      | some s => exact pyTruthy_ne_empty h3
      | none =>
        cases h4 : pyTruthy (tget tags "man_made") with
        | some s => exact pyTruthy_ne_empty h4
        | none => simp

lemma classify_kind_eq (tags : Tags) : (classify_feature tags).kind = (ladderTuple tags).1 := rfl

lemma classify_pollen_eq (tags : Tags) :
    (classify_feature tags).pollen_risk = (ladderTuple tags).2.2.2.2.1 := rfl

set_option maxHeartbeats 2000000 in
set_option linter.unusedTactic false in
lemma ladder_cases (tags : Tags) :
    (ladderTuple tags).1 = kindOf (firstMatchingRule tags) tags ∧
    (ladderTuple tags).1 ≠ "" ∧
    (ladderTuple tags).2.2.2.2.1 ∈ (["low", "medium", "higher"] : List String) := by
  have hfb := fallbackKind_ne_empty tags
  unfold ladderTuple firstMatchingRule
  dsimp only
  by_cases h0 : (tget tags "amenity" == some "community_centre") = true
  · simp only [if_pos h0]
    refine ⟨?_, ?_, ?_⟩
    · simp [kindOf, ruleKind]
    · repeat' split
      all_goals simp
    · repeat' split
      all_goals simp
  · simp only [if_neg h0]
    by_cases h1 : (tget tags "leisure" == some "swimming_pool") = true
    · simp only [if_pos h1]
      refine ⟨?_, ?_, ?_⟩
      · simp [kindOf, ruleKind]
      · repeat' split
        all_goals simp
      · repeat' split
        all_goals simp
    · simp only [if_neg h1]
      by_cases h2 : (tget tags "leisure" == some "park") = true
      · simp only [if_pos h2]
        refine ⟨?_, ?_, ?_⟩
        · simp [kindOf, ruleKind]
        · repeat' split
          all_goals simp
        · repeat' split
          all_goals simp
      · simp only [if_neg h2]
        by_cases h3 : (tget tags "leisure" == some "playground") = true
        · simp only [if_pos h3]
          refine ⟨?_, ?_, ?_⟩
          · simp [kindOf, ruleKind]
          · repeat' split
            all_goals simp
          · repeat' split
            all_goals simp
        · simp only [if_neg h3]
          by_cases h4 : (tget tags "leisure" == some "fitness_station") = true
          · simp only [if_pos h4]
            refine ⟨?_, ?_, ?_⟩
            · simp [kindOf, ruleKind]
            · repeat' split
              all_goals simp
            · repeat' split
              all_goals simp
          · simp only [if_neg h4]
            by_cases h5 : (tget tags "leisure" == some "track") = true
            · simp only [if_pos h5]
              refine ⟨?_, ?_, ?_⟩
              · simp [kindOf, ruleKind]
              · repeat' split
                all_goals simp
              · repeat' split
                all_goals simp
            · simp only [if_neg h5]
              by_cases h6 : (tget tags "man_made" == some "pier" || tget tags "tourism" == some "beach") = true
              · simp only [if_pos h6]
                refine ⟨?_, ?_, ?_⟩
                · simp [kindOf, ruleKind]
                · repeat' split
                  all_goals simp
                · repeat' split
                  all_goals simp
              · simp only [if_neg h6]
                by_cases h7 : (tget tags "leisure" == some "pitch") = true
                · simp only [if_pos h7]
                  refine ⟨?_, ?_, ?_⟩
                  · simp [kindOf, ruleKind]
                  · repeat' split
                    all_goals simp
                  · repeat' split
                    all_goals simp
                · simp only [if_neg h7]
                  by_cases h8 : (tget tags "leisure" == some "recreation_ground") = true
                  · simp only [if_pos h8]
                    refine ⟨?_, ?_, ?_⟩
                    · simp [kindOf, ruleKind]
                    · repeat' split
                      all_goals simp
                    · repeat' split
                      all_goals simp
                  · simp only [if_neg h8]
                    by_cases h9 : (tget tags "leisure" == some "ice_rink") = true
                    · simp only [if_pos h9]
                      refine ⟨?_, ?_, ?_⟩
                      · simp [kindOf, ruleKind]
                      · repeat' split
                        all_goals simp
                      · repeat' split
                        all_goals simp
                    · simp only [if_neg h9]
                      by_cases h10 : (tget tags "leisure" == some "sports_centre") = true
                      · simp only [if_pos h10]
                        refine ⟨?_, ?_, ?_⟩
                        · simp [kindOf, ruleKind]
                        · repeat' split
                          all_goals simp
                        · repeat' split
                          all_goals simp
                      · simp only [if_neg h10]
                        by_cases h11 : (tget tags "highway" == some "cycleway") = true
                        · simp only [if_pos h11]
                          refine ⟨?_, ?_, ?_⟩
                          · simp [kindOf, ruleKind]
                          · repeat' split
                            all_goals simp
                          · repeat' split
                            all_goals simp
                        · simp only [if_neg h11]
                          by_cases h12 : (tget tags "tourism" == some "museum") = true
                          · simp only [if_pos h12]
                            refine ⟨?_, ?_, ?_⟩
                            · simp [kindOf, ruleKind]
                            · repeat' split
                              all_goals simp
                            · repeat' split
                              all_goals simp
                          · simp only [if_neg h12]
                            by_cases h13 : (tget tags "amenity" == some "marketplace") = true
                            · simp only [if_pos h13]
                              refine ⟨?_, ?_, ?_⟩
                              · simp [kindOf, ruleKind]
                              · repeat' split
                                all_goals simp
                              · repeat' split
                                all_goals simp
                            · simp only [if_neg h13]
                              by_cases h14 : (tget tags "amenity" == some "arts_centre") = true
                              · simp only [if_pos h14]
                                refine ⟨?_, ?_, ?_⟩
                                · simp [kindOf, ruleKind]
                                · repeat' split
                                  all_goals simp
                                · repeat' split
                                  all_goals simp
                              · simp only [if_neg h14]
                                by_cases h15 : (tget tags "tourism" == some "attraction" &&
                                      (tget tags "attraction" == some "farm" || tget tags "attraction" == some "animal_park" ||
                                       tget tags "attraction" == some "botanical_garden")) = true
                                · simp only [if_pos h15]
                                  refine ⟨?_, ?_, ?_⟩
                                  · simp [kindOf, ruleKind]
                                  · repeat' split
                                    all_goals simp
                                  · repeat' split
                                    all_goals simp
                                · simp only [if_neg h15]
                                  by_cases h16 : (tget tags "leisure" == some "garden" &&
                                        (tget tags "garden" == some "botanical" || tget tags "garden" == some "arboretum" ||
                                         tget tags "garden:type" == some "botanical" || tget tags "garden:type" == some "arboretum")) = true
                                  · simp only [if_pos h16]
                                    refine ⟨?_, ?_, ?_⟩
                                    · simp [kindOf, ruleKind]
                                    · repeat' split
                                      all_goals simp
                                    · repeat' split
                                      all_goals simp
                                  · simp only [if_neg h16]
                                    by_cases h17 : (tget tags "shop" == some "farm") = true
                                    · simp only [if_pos h17]
                                      refine ⟨?_, ?_, ?_⟩
                                      · simp [kindOf, ruleKind]
                                      · repeat' split
                                        all_goals simp
                                      · repeat' split
                                        all_goals simp
                                    · simp only [if_neg h17]
                                      refine ⟨?_, ?_, ?_⟩
                                      · simp [kindOf]
                                      · exact hfb
                                      · simp

/-- C4: classification is total: for every tag dictionary the kind is a
nonempty string (through the raw tag value or Public place fallback) and
the pollen risk is one of low, medium, higher. -/
theorem c4_classify_total (tags : Tags) :
    (classify_feature tags).kind ≠ "" ∧
    (classify_feature tags).pollen_risk ∈ (["low", "medium", "higher"] : List String) := by
  rw [classify_kind_eq, classify_pollen_eq]
  exact ⟨(ladder_cases tags).2.1, (ladder_cases tags).2.2⟩

/-- C2: first match wins in the classify_feature rule ladder: whenever
the first matching rule has index k in the fixed priority order, the
assigned kind is the kind of that rule; in particular a tag map carrying
both a community centre tag and a park tag classifies as Community
center, not Park. -/
theorem c2_rule_priority :
    (∀ (tags : Tags) (k : ℕ), firstMatchingRule tags = some k →
      (classify_feature tags).kind = ruleKind k tags) ∧
    (classify_feature ccParkTags).kind = "Community center" ∧
    (classify_feature ccParkTags).kind ≠ "Park" := by
  refine ⟨?_, by decide, by decide⟩
  intro tags k hk
  rw [classify_kind_eq, (ladder_cases tags).1, hk]
  rfl

/-- C2 witness: the community centre and park tag map matches rule 0 and
classifies with the kind of rule 0. -/
theorem c2_rule_priority_witness :
    (classify_feature ccParkTags).kind = ruleKind 0 ccParkTags :=
  c2_rule_priority.1 ccParkTags 0 (by decide)

lemma cwAux_cover (mask : List Bool) : ∀ (n i : ℕ) (start : Option ℕ) (j : ℕ),
    n = i + mask.length →
    (∀ s, start = some s → s < i) →
    ((∃ w ∈ cwAux n mask i start, w.1 ≤ j ∧ j ≤ w.2) ↔
      ((mask ≠ [] ∧ ∃ s, start = some s ∧ s ≤ j ∧ j < i) ∨
        (∃ k, k < mask.length ∧ mask.getD k false = true ∧ j = i + k))) := by
  induction mask with
  | nil =>
    intro n i start j hn hst
    simp [cwAux]
  | cons g rest ih =>
    intro n i start j hn hst
    have hlen : n = (i + 1) + rest.length := by
      simp only [List.length_cons] at hn
      omega
    cases g with
    | false =>
      cases start with
      | none =>
        rw [show cwAux n (false :: rest) i none = cwAux n rest (i + 1) none from rfl]
        rw [ih n (i + 1) none j hlen (by intro s hs; exact absurd hs (by simp))]
        constructor
        · rintro (⟨hne, s, hs, _⟩ | ⟨k, hk, hg, hj⟩)
          · exact absurd hs (by simp)
          · refine Or.inr ⟨k + 1, by simp; omega, by simpa using hg, by omega⟩
        · rintro (⟨hne, s, hs, _⟩ | ⟨k, hk, hg, hj⟩)
          · exact absurd hs (by simp)
          · cases k with
            | zero => simp at hg
            | succ k' =>
              refine Or.inr ⟨k', by simp at hk; omega, by simpa using hg, by omega⟩
      | some s =>
        have hsi : s < i := hst s rfl
        rw [show cwAux n (false :: rest) i (some s) = (s, i - 1) :: cwAux n rest (i + 1) none from rfl]
        rw [List.exists_mem_cons_iff]
        rw [ih n (i + 1) none j hlen (by intro s hs; exact absurd hs (by simp))]
        constructor
        · rintro (⟨hsj, hji⟩ | (⟨hne, s2, hs2, _⟩ | ⟨k, hk, hg, hj⟩))
          · exact Or.inl ⟨by simp, s, rfl, hsj, by omega⟩
          · exact absurd hs2 (by simp)
          · refine Or.inr ⟨k + 1, by simp; omega, by simpa using hg, by omega⟩
        · rintro (⟨hne, s2, hs2, hs2j, hji⟩ | ⟨k, hk, hg, hj⟩)
          · injection hs2 with he
            subst he
            exact Or.inl ⟨hs2j, by omega⟩
          · cases k with
            | zero => simp at hg
            | succ k' =>
              refine Or.inr (Or.inr ⟨k', by simp at hk; omega, by simpa using hg, by omega⟩)
    | true =>
      by_cases hi : i = n - 1
      · have hrest : rest = [] := by
          have : rest.length = 0 := by omega
          exact List.length_eq_zero.mp this
        subst hrest
        cases start with
        | none =>
          rw [show cwAux n [true] i none = if i = n - 1 then (i, i) :: cwAux n [] (i + 1) none
              else cwAux n [] (i + 1) (some i) from rfl]
          rw [if_pos hi]
          rw [show cwAux n ([] : List Bool) (i + 1) none = [] from rfl]
          simp only [List.exists_mem_cons_iff]
          constructor
          · rintro (⟨hij, hji⟩ | h)
            · exact Or.inr ⟨0, by simp, by simp, by omega⟩
            · simp at h
          · rintro (⟨hne, s2, hs2, _⟩ | ⟨k, hk, hg, hj⟩)
            · exact absurd hs2 (by simp)
            · have hk0 : k = 0 := by simp at hk; omega
              subst hk0
              exact Or.inl ⟨by omega, by omega⟩
        | some s =>
          have hsi : s < i := hst s rfl
          rw [show cwAux n [true] i (some s) = if i = n - 1 then (s, i) :: cwAux n [] (i + 1) none
              else cwAux n [] (i + 1) (some s) from rfl]
          rw [if_pos hi]
          rw [show cwAux n ([] : List Bool) (i + 1) none = [] from rfl]
          simp only [List.exists_mem_cons_iff]
          constructor
          · rintro (⟨hsj, hji⟩ | h)
            · by_cases hji2 : j < i
              · exact Or.inl ⟨by simp, s, rfl, hsj, hji2⟩
              · exact Or.inr ⟨0, by simp, by simp, by omega⟩
            · simp at h
          · rintro (⟨hne, s2, hs2, hs2j, hji⟩ | ⟨k, hk, hg, hj⟩)
            · injection hs2 with he
              subst he
              exact Or.inl ⟨hs2j, by omega⟩
            · have hk0 : k = 0 := by simp at hk; omega
              subst hk0
              exact Or.inl ⟨by omega, by omega⟩
      · have hne : rest ≠ [] := by
          intro hr
          subst hr
          simp at hlen
          omega
        cases start with
        | none =>
          rw [show cwAux n (true :: rest) i none = if i = n - 1 then (i, i) :: cwAux n rest (i + 1) none
              else cwAux n rest (i + 1) (some i) from rfl]
          rw [if_neg hi]
          rw [ih n (i + 1) (some i) j hlen (by intro s hs; injection hs with he; omega)]
          constructor
          · rintro (⟨_, s2, hs2, hs2j, hji⟩ | ⟨k, hk, hg, hj⟩)
            · injection hs2 with he
              subst he
              exact Or.inr ⟨0, by simp, by simp, by omega⟩
            · refine Or.inr ⟨k + 1, by simp; omega, by simpa using hg, by omega⟩
          · rintro (⟨_, s2, hs2, _⟩ | ⟨k, hk, hg, hj⟩)
            · exact absurd hs2 (by simp)
            · cases k with
              | zero =>
                refine Or.inl ⟨hne, i, rfl, by omega, by omega⟩
              | succ k' =>
                refine Or.inr ⟨k', by simp at hk; omega, by simpa using hg, by omega⟩
        | some s =>
          have hsi : s < i := hst s rfl
          rw [show cwAux n (true :: rest) i (some s) = if i = n - 1 then (s, i) :: cwAux n rest (i + 1) none
              else cwAux n rest (i + 1) (some s) from rfl]
          rw [if_neg hi]
          rw [ih n (i + 1) (some s) j hlen (by intro s2 hs2; injection hs2 with he; omega)]
          constructor
          · rintro (⟨_, s2, hs2, hs2j, hji⟩ | ⟨k, hk, hg, hj⟩)
            · injection hs2 with he
              subst he
              by_cases hji2 : j < i
              · exact Or.inl ⟨by simp, s, rfl, hs2j, hji2⟩
              · exact Or.inr ⟨0, by simp, by simp, by omega⟩
            · refine Or.inr ⟨k + 1, by simp; omega, by simpa using hg, by omega⟩
          · rintro (⟨_, s2, hs2, hs2j, hji⟩ | ⟨k, hk, hg, hj⟩)
            · injection hs2 with he
              subst he
              exact Or.inl ⟨hne, s, rfl, hs2j, by omega⟩
            · cases k with
              | zero =>
                exact Or.inl ⟨hne, s, rfl, by omega, by omega⟩
              | succ k' =>
                refine Or.inr ⟨k', by simp at hk; omega, by simpa using hg, by omega⟩

lemma cwAux_le (mask : List Bool) : ∀ (n i : ℕ) (start : Option ℕ),
    (∀ s, start = some s → s < i) →
    ∀ w ∈ cwAux n mask i start, w.1 ≤ w.2 := by
  induction mask with
  | nil =>
    intro n i start hst w hw
    simp [cwAux] at hw
  | cons g rest ih =>
    intro n i start hst w hw
    cases g with
    | false =>
      cases start with
      | none => exact ih n (i + 1) none (by intro s hs; exact absurd hs (by simp)) w hw
      | some s =>
        have hsi : s < i := hst s rfl
        rw [show cwAux n (false :: rest) i (some s) = (s, i - 1) :: cwAux n rest (i + 1) none from rfl] at hw
        rcases List.mem_cons.mp hw with he | hm
        · subst he
          simp
          omega
        · exact ih n (i + 1) none (by intro s2 hs2; exact absurd hs2 (by simp)) w hm
    | true =>
      cases start with
      | none =>
        rw [show cwAux n (true :: rest) i none = if i = n - 1 then (i, i) :: cwAux n rest (i + 1) none
            else cwAux n rest (i + 1) (some i) from rfl] at hw
        by_cases hi : i = n - 1
        · rw [if_pos hi] at hw
          rcases List.mem_cons.mp hw with he | hm
          · subst he
            simp
          · exact ih n (i + 1) none (by intro s hs; exact absurd hs (by simp)) w hm
        · rw [if_neg hi] at hw
          exact ih n (i + 1) (some i) (by intro s hs; injection hs with he; omega) w hw
      | some s =>
        have hsi : s < i := hst s rfl
        rw [show cwAux n (true :: rest) i (some s) = if i = n - 1 then (s, i) :: cwAux n rest (i + 1) none
            else cwAux n rest (i + 1) (some s) from rfl] at hw
        by_cases hi : i = n - 1
        · rw [if_pos hi] at hw
          rcases List.mem_cons.mp hw with he | hm
          · subst he
            simp
            omega
          · exact ih n (i + 1) none (by intro s2 hs2; exact absurd hs2 (by simp)) w hm
        · rw [if_neg hi] at hw
          exact ih n (i + 1) (some s) (by intro s2 hs2; injection hs2 with he; omega) w hw

lemma cw_cover (mask : List Bool) (j : ℕ) :
    (∃ w ∈ contiguous_windows mask, w.1 ≤ j ∧ j ≤ w.2) ↔
      (j < mask.length ∧ mask.getD j false = true) := by
  unfold contiguous_windows
  rw [cwAux_cover mask mask.length 0 none j (by omega) (by intro s hs; exact absurd hs (by simp))]
  constructor
  · rintro (⟨_, s, hs, _⟩ | ⟨k, hk, hg, hj⟩)
    · exact absurd hs (by simp)
    · have hkj : k = j := by omega
      subst hkj
      exact ⟨hk, hg⟩
  · rintro ⟨hj, hg⟩
    exact Or.inr ⟨j, hj, hg, by omega⟩

lemma cw_le (mask : List Bool) : ∀ w ∈ contiguous_windows mask, w.1 ≤ w.2 := fun w hw =>
  cwAux_le mask mask.length 0 none (by intro s hs; exact absurd hs (by simp)) w hw

lemma cw_nil_iff (mask : List Bool) :
    contiguous_windows mask = [] ↔ ∀ k, k < mask.length → mask.getD k false = false := by
  constructor
  · intro hnil k hk
    by_contra hg
    simp only [Bool.not_eq_false] at hg
    have hcov := (cw_cover mask k).mpr ⟨hk, hg⟩
    rw [hnil] at hcov
    simp at hcov
  · intro hall
    by_contra hne
    obtain ⟨w, hw⟩ := List.exists_mem_of_ne_nil _ hne
    have hle := cw_le mask w hw
    have hcov := (cw_cover mask w.1).mp ⟨w, hw, le_refl _, hle⟩
    have hf := hall w.1 hcov.1
    rw [hcov.2] at hf
    exact Bool.noConfusion hf

lemma getD_map_lt {α β : Type} (f : α → β) :
    ∀ (l : List α) (j : ℕ), j < l.length → ∀ (d : β) (d2 : α), (l.map f).getD j d = f (l.getD j d2) := by
  intro l
  induction l with
  | nil =>
    intro j hj
    simp at hj
  | cons a t ih =>
    intro j hj d d2
    cases j with
    | zero => simp
    | succ j2 =>
      simp only [List.map_cons, List.getD_cons_succ]
      exact ih j2 (by simp at hj; omega) d d2

lemma riskMask_length (hourly : List HourRec) (active : Finset String) :
    (riskMask hourly active).length = hourly.length := by
  simp [riskMask]

lemma riskMask_getD (hourly : List HourRec) (active : Finset String) (j : ℕ) (hj : j < hourly.length) :
    (riskMask hourly active).getD j false =
      decide (hourRisk active (hourly.getD j default) ≤ 2) := by
  unfold riskMask
  rw [getD_map_lt (fun r => decide (r ≤ 2)) (hourly.map fun rec => hourRisk active rec) j
      (by simp [hj]) false (hourRisk active (hourly.getD j default))]
  rw [getD_map_lt (fun rec => hourRisk active rec) hourly j hj
      (hourRisk active (hourly.getD j default)) default]

lemma windowOf_fst (hourly : List HourRec) (active : Finset String) (se : ℕ × ℕ) :
    (windowOf hourly active se).1 = (hourly.getD se.1 default).hour := rfl

lemma windowOf_snd_fst (hourly : List HourRec) (active : Finset String) (se : ℕ × ℕ) :
    (windowOf hourly active se).2.1 = (hourly.getD se.2 default).hour + 1 := rfl

lemma windowOf_reason_ne (hourly : List HourRec) (active : Finset String) (se : ℕ × ℕ) :
    (windowOf hourly active se).2.2 ≠ "early morning (heuristic)" ∧
    (windowOf hourly active se).2.2 ≠ "evening (heuristic)" := by
  unfold windowOf
  dsimp only
  by_cases hu : "UV sensitivity" ∈ active
  · by_cases hp : "Pollen sensitivity" ∈ active ∨ "Breathing sensitivity" ∈ active
    · rw [if_pos hu, if_pos hp]
      cases hr : ((List.range (se.2 + 1 - se.1)).any fun k => (hourly.getD (se.1 + k) default).rain) <;>
        decide
    · rw [if_pos hu, if_neg hp]
      decide
  · by_cases hp : "Pollen sensitivity" ∈ active ∨ "Breathing sensitivity" ∈ active
    · rw [if_neg hu, if_pos hp]
      cases hr : ((List.range (se.2 + 1 - se.1)).any fun k => (hourly.getD (se.1 + k) default).rain) <;>
        decide
    · rw [if_neg hu, if_neg hp]
      decide

lemma btw_eq (hourly : List HourRec) (active : Finset String) :
    build_time_windows hourly active =
      if contiguous_windows (riskMask hourly active) = [] then
        [(6, 9, "early morning (heuristic)"), (18, 21, "evening (heuristic)")]
      else (contiguous_windows (riskMask hourly active)).map (windowOf hourly active) := by
  unfold build_time_windows
  dsimp only
  cases hidx : contiguous_windows (riskMask hourly active) with
  | nil => simp
  | cons a t => simp

lemma ite_mem_union_add {S1 S2 : Finset String} (h : Disjoint S1 S2) (x : String) (d : ℤ) :
    (if x ∈ S1 ∪ S2 then d else 0) = (if x ∈ S1 then d else 0) + (if x ∈ S2 then d else 0) := by
  by_cases h1 : x ∈ S1
  · have h2 : x ∉ S2 := Finset.disjoint_left.mp h h1
    simp [Finset.mem_union, h1, h2]
  · by_cases h2 : x ∈ S2
    · simp [Finset.mem_union, h1, h2]
    · simp [Finset.mem_union, h1, h2]

/-- C5: sensitivity adjustments are additive and order independent: for
disjoint sensitivity sets the score uplift of their union over the empty
set is the sum of the individual uplifts, for every attribute record,
distance and road distance. -/
theorem c5_additive_adjustments (feat : Classified) (d : ℚ) (rd : Option ℚ)
    (S1 S2 : Finset String) (hdisj : Disjoint S1 S2) :
    score_feature feat (S1 ∪ S2) d rd - score_feature feat ∅ d rd =
      (score_feature feat S1 d rd - score_feature feat ∅ d rd) +
      (score_feature feat S2 d rd - score_feature feat ∅ d rd) := by
  have hint : totalDelta feat (S1 ∪ S2) rd + totalDelta feat ∅ rd =
      totalDelta feat S1 rd + totalDelta feat S2 rd := by
    simp only [totalDelta, Finset.not_mem_empty, if_false, ite_mem_union_add hdisj]
    ring
  rw [score_feature_split, score_feature_split, score_feature_split, score_feature_split]
  have hq : (totalDelta feat (S1 ∪ S2) rd : ℚ) + (totalDelta feat ∅ rd : ℚ) =
      (totalDelta feat S1 rd : ℚ) + (totalDelta feat S2 rd : ℚ) := by
    exact_mod_cast hint
  linarith

/-- C5 witness: the additivity equation at a concrete record with the
disjoint singleton sets UV sensitivity and Pollen sensitivity. -/
theorem c5_additive_adjustments_witness :
    score_feature bareFeat ({"UV sensitivity"} ∪ {"Pollen sensitivity"}) 0 none -
        score_feature bareFeat ∅ 0 none =
      (score_feature bareFeat {"UV sensitivity"} 0 none - score_feature bareFeat ∅ 0 none) +
      (score_feature bareFeat {"Pollen sensitivity"} 0 none - score_feature bareFeat ∅ 0 none) :=
  c5_additive_adjustments bareFeat 0 none {"UV sensitivity"} {"Pollen sensitivity"} (by decide)

/-- C6: for a fixed attribute record, sensitivity set and road distance,
score_feature is non-increasing in the distance, and the distance-decay
base is clamped at zero, hence never negative. -/
theorem c6_score_monotone (feat : Classified) (active : Finset String) (rd : Option ℚ)
    (d1 d2 : ℚ) (h : d1 ≤ d2) :
    score_feature feat active d2 rd ≤ score_feature feat active d1 rd ∧
    (0 : ℚ) ≤ max 0 (100 - d1 * 8) := by
  constructor
  · rw [score_feature_eq, score_feature_eq]
    apply round1_mono
    have hm : max (0 : ℚ) (100 - d2 * 8) ≤ max 0 (100 - d1 * 8) :=
      max_le_max le_rfl (by linarith)
    linarith
  · exact le_max_left 0 _

/-- C6 witness: the monotonicity inequality at distances 0 and 1 for a
concrete record. -/
theorem c6_score_monotone_witness :
    score_feature bareFeat ∅ 1 none ≤ score_feature bareFeat ∅ 0 none ∧
    (0 : ℚ) ≤ max 0 (100 - 0 * 8) :=
  c6_score_monotone bareFeat ∅ none 0 1 (by norm_num)

/-- C8: with a null road distance, scoring is insensitive to the Smog
sensitivity (its band silently no-ops), and the Noise and Privacy blocks
degrade to their quiet hint and kind adjustments alone. -/
theorem c8_null_road_distance (feat : Classified) (active : Finset String) (d : ℚ) :
    score_feature feat active d none =
      score_feature feat (active.erase "Smog sensitivity") d none ∧
    noiseDelta feat none = (if feat.quiet_hint then 4 else 0) ∧
    privacyDelta feat none = (if feat.quiet_hint then 6 else 0) +
      (if feat.kind ∈ ["Boardwalk / beach / pier", "Playground / fitness area"] then -4 else 0) := by
  refine ⟨?_, by simp [noiseDelta], by simp [privacyDelta]⟩
  rw [score_feature_eq, score_feature_eq]
  have hTD : totalDelta feat active none = totalDelta feat (active.erase "Smog sensitivity") none := by
    simp [totalDelta, smogDelta, Finset.mem_erase]
  rw [hTD]

/-- C1: the claim as stated fails on the all-risky series: with uv index
8 every hour and UV sensitivity active, no hour is good, the fallback
window 06:00-09:00 is returned and contains hour 6, yet the accumulated
risk of hour 6 exceeds 2, so hour-in-window is not equivalent to
risk at most 2. -/
theorem c1_counterexample :
    (∀ i, i < 16 → (uvSeries.getD i default).hour = 6 + i) ∧
    ¬ ((∃ w ∈ build_time_windows uvSeries {"UV sensitivity"}, w.1 ≤ 6 ∧ 6 < w.2.1) ↔
      (∃ i, i < 16 ∧ (6 : ℕ) = 6 + i ∧
        hourRisk {"UV sensitivity"} (uvSeries.getD i default) ≤ 2)) := by
  decide

/-- C1 (amended): over a series for hours 6 to 21, build_time_windows
never returns an empty list, the two fixed fallback windows appear
exactly when every hour is risky, and whenever at least one hour is good
the returned windows cover exactly the good hours: an hour lies in some
half-open window range exactly when its accumulated risk is at most 2,
every window is nonempty, and every window end is one hour past a good
hour, its last covered hour. -/
theorem c1_time_windows_cover (hourly : List HourRec) (active : Finset String)
    (hlen : hourly.length = 16)
    (hhr : ∀ i, i < 16 → (hourly.getD i default).hour = 6 + i) :
    build_time_windows hourly active ≠ [] ∧
    (((6, 9, "early morning (heuristic)") ∈ build_time_windows hourly active ∧
      (18, 21, "evening (heuristic)") ∈ build_time_windows hourly active) ↔
      ∀ i, i < 16 → ¬ hourRisk active (hourly.getD i default) ≤ 2) ∧
    ((∃ i, i < 16 ∧ hourRisk active (hourly.getD i default) ≤ 2) →
      (∀ h : ℕ, (∃ w ∈ build_time_windows hourly active, w.1 ≤ h ∧ h < w.2.1) ↔
        (∃ i, i < 16 ∧ h = 6 + i ∧ hourRisk active (hourly.getD i default) ≤ 2)) ∧
      (∀ w ∈ build_time_windows hourly active, w.1 < w.2.1 ∧
        ∃ i, i < 16 ∧ w.2.1 = (6 + i) + 1 ∧ hourRisk active (hourly.getD i default) ≤ 2)) := by
  have hml : (riskMask hourly active).length = 16 := by
    rw [riskMask_length, hlen]
  have hget : ∀ j, j < 16 →
      ((riskMask hourly active).getD j false = true ↔ hourRisk active (hourly.getD j default) ≤ 2) := by
    intro j hj
    rw [riskMask_getD hourly active j (by omega)]
    simp
  rw [btw_eq]
  by_cases hempty : contiguous_windows (riskMask hourly active) = []
  · rw [if_pos hempty]
    have hallbad : ∀ i, i < 16 → ¬ hourRisk active (hourly.getD i default) ≤ 2 := by
      intro i hi hrisk
      have hg : (riskMask hourly active).getD i false = true := (hget i hi).mpr hrisk
      have hf := (cw_nil_iff _).mp hempty i (by omega)
      rw [hf] at hg
      exact Bool.noConfusion hg
    refine ⟨by simp, ?_, ?_⟩
    · constructor
      · intro _
        exact hallbad
      · intro _
        exact ⟨by simp, by simp⟩
    · rintro ⟨i, hi, hrisk⟩
      exact absurd hrisk (hallbad i hi)
  · rw [if_neg hempty]
    have hgood : ∃ i, i < 16 ∧ hourRisk active (hourly.getD i default) ≤ 2 := by
      by_contra hno
      push_neg at hno
      apply hempty
      apply (cw_nil_iff _).mpr
      intro k hk
      have hk16 : k < 16 := by omega
      by_contra hgk
      simp only [Bool.not_eq_false] at hgk
      have h2 := hno k hk16
      have h3 := (hget k hk16).mp hgk
      omega
    have hseb : ∀ se ∈ contiguous_windows (riskMask hourly active),
        se.1 ≤ se.2 ∧ se.2 < 16 ∧ (riskMask hourly active).getD se.1 false = true ∧
          (riskMask hourly active).getD se.2 false = true := by
      intro se hse2
      have hle := cw_le _ se hse2
      have hc1 := (cw_cover _ se.1).mp ⟨se, hse2, le_refl _, hle⟩
      have hc2 := (cw_cover _ se.2).mp ⟨se, hse2, hle, le_refl _⟩
      exact ⟨hle, by omega, hc1.2, hc2.2⟩
    refine ⟨?_, ?_, ?_⟩
    · intro hmapnil
      exact hempty (List.map_eq_nil_iff.mp hmapnil)
    · constructor
      · rintro ⟨hmem1, _⟩
        obtain ⟨se, hse2, hweq⟩ := List.mem_map.mp hmem1
        have hne := (windowOf_reason_ne hourly active se).1
        rw [hweq] at hne
        simp at hne
      · intro hall
        obtain ⟨i, hi, hrisk⟩ := hgood
        exact absurd hrisk (hall i hi)
    · intro _
      constructor
      · intro h
        constructor
        · rintro ⟨w, hw, hwh1, hwh2⟩
          obtain ⟨se, hse2, hweq⟩ := List.mem_map.mp hw
          obtain ⟨hle, hs2lt, hg1, hg2⟩ := hseb se hse2
          have hs1lt : se.1 < 16 := by omega
          have hw1 : w.1 = 6 + se.1 := by
            rw [← hweq, windowOf_fst, hhr se.1 hs1lt]
          have hw2 : w.2.1 = (6 + se.2) + 1 := by
            rw [← hweq, windowOf_snd_fst, hhr se.2 hs2lt]
          have hcov : ∃ w2 ∈ contiguous_windows (riskMask hourly active),
              w2.1 ≤ h - 6 ∧ h - 6 ≤ w2.2 := ⟨se, hse2, by omega, by omega⟩
          have hgd := (cw_cover _ (h - 6)).mp hcov
          refine ⟨h - 6, by omega, by omega, (hget (h - 6) (by omega)).mp hgd.2⟩
        · rintro ⟨i, hi, hhi, hrisk⟩
          have hg : (riskMask hourly active).getD i false = true := (hget i hi).mpr hrisk
          obtain ⟨se, hse2, h1, h2⟩ := (cw_cover _ i).mpr ⟨by omega, hg⟩
          obtain ⟨hle, hs2lt, _, _⟩ := hseb se hse2
          have hs1lt : se.1 < 16 := by omega
          refine ⟨windowOf hourly active se, List.mem_map_of_mem _ hse2, ?_, ?_⟩
          · rw [windowOf_fst, hhr se.1 hs1lt]
            omega
          · rw [windowOf_snd_fst, hhr se.2 hs2lt]
            omega
      · intro w hw
        obtain ⟨se, hse2, hweq⟩ := List.mem_map.mp hw
        obtain ⟨hle, hs2lt, hg1, hg2⟩ := hseb se hse2
        have hs1lt : se.1 < 16 := by omega
        constructor
        · rw [← hweq, windowOf_fst, windowOf_snd_fst, hhr se.1 hs1lt, hhr se.2 hs2lt]
          omega
        · refine ⟨se.2, by omega, ?_, (hget se.2 (by omega)).mp hg2⟩
          rw [← hweq, windowOf_snd_fst, hhr se.2 hs2lt]

/-- C1 witness: a calm series with no active sensitivity satisfies the
series shape hypotheses, and the recommender returns a nonempty window
list for it. -/
theorem c1_time_windows_cover_witness :
    build_time_windows calmSeries ∅ ≠ [] :=
  (c1_time_windows_cover calmSeries ∅ (by decide) (by decide)).1
